import Mathlib

/-!
# Model of the chameleon `stream_server` session core

This file embeds the session procedure of `src/stream_server/session.c`
(together with the packet format of `packet_format.h`) as executable Lean
functions, and proves properties of the embedding.

Machine integers are modelled as `Nat` / `Int` with explicit reductions
modulo `2^32` (resp. `2^16`) exactly where the C types force them.
Socket writes are modelled as always succeeding: every byte handed to
`write` is recorded as a `WireEvent`.  Socket reads, `malloc` and `mmap`
outcomes, and hardware register contents are inputs of the model.
-/

/-- Two's-complement reinterpretation of an unsigned 32-bit value as a C
`int` (the conversion performed when a `uint32_t` is passed to an `int`
parameter). -/
def int32OfNat (n : Nat) : Int :=
  if n % 2 ^ 32 < 2 ^ 31 then (n % 2 ^ 32 : Int) else (n % 2 ^ 32 : Int) - 2 ^ 32

/-- Reinterpretation of a C `int` as a `uint32_t` (two's complement). -/
def uint32OfInt (i : Int) : Nat := (i % 2 ^ 32).toNat

/-- `uint32_t` subtraction `a - b`, i.e. subtraction modulo `2^32`. -/
def sub32 (a b : Nat) : Nat := (a % 2 ^ 32 + (2 ^ 32 - b % 2 ^ 32)) % 2 ^ 32

/-- `uint32_t` product `a * b`, i.e. multiplication modulo `2^32`. -/
def mul32 (a b : Nat) : Nat := a * b % 2 ^ 32

/-- `_GetCountDifference` from `session.c`.  Both parameters are C `int`s;
`kHW_CountWrap_ = 0x10000`.  C's `%` on `int` is the truncated remainder,
`Int.tmod`. -/
def getCountDifference (hwCount count : Int) : Int :=
  let difference := hwCount - Int.tmod count 65536
  if difference < 0 then difference + 65536 else difference

/-- `_calculate_page_aligned_size` from `session.c`: round `size` up to the
next multiple of the system page size (`getpagesize()`, a model input). -/
def calculatePageAlignedSize (pagesize size : Nat) : Nat :=
  if size % pagesize ≠ 0 then
    let size1 := size + pagesize
    size1 - size1 % pagesize
  else size

/-- `MAX_SOCKETBUFFER_SIZE` from `session.c`. -/
def kMaxSocketBufferSize : Nat := 2048

/-- The size guard of `_ReadFromSocket`: the read is refused exactly when
`size > MAX_SOCKETBUFFER_SIZE` (the `size` argument is a C `int`). -/
def readFromSocketSizeOk (size : Int) : Bool :=
  decide (size ≤ (kMaxSocketBufferSize : Int))

/-- Payload acceptance at parse time in `_ProcessMessage`: the `length`
wire field (`u32`, read through `ntohl` into a C `int`) is accepted when it
is zero (the payload read is skipped) or passes `_ReadFromSocket`'s size
guard. -/
def processMessagePayloadOk (length : Nat) : Bool :=
  (int32OfNat length == 0) || readFromSocketSizeOk (int32OfNat length)

/-! ## The shrink transform (`_DumpVideoFrameToClient`)

The C function either `memcpy`s the whole frame (no shrink), or walks the
frame keeping one pixel out of every `shrink_width + 1` columns and one row
out of every `shrink_height + 1` rows.  When `shrink_width < 4 ||
shrink_height < 4` it first copies the frame into the dump buffer and then
shrinks the dump buffer *in place*; otherwise it reads the mapped source
directly.  Both variants are modelled: the in-place variant threads the
list of bytes written so far and reads positions beyond it from the copied
frame, i.e. from the source. -/

/-- Inner width loop of the shrink pass, reading from an immutable source.
`w` is the C loop counter; three bytes are copied, then `sw` pixels are
skipped (`p_width += shrink_width * 3; width += shrink_width;` plus the
`for` increment). -/
def shrinkRowD (src : Nat → Nat) (rowOff W sw : Nat) (w : Nat) : List Nat :=
  if w < W then
    src (rowOff + 3 * w) :: src (rowOff + 3 * w + 1) :: src (rowOff + 3 * w + 2) ::
      shrinkRowD src rowOff W sw (w + sw + 1)
  else []
termination_by W - w
decreasing_by omega

/-- Outer height loop of the shrink pass reading from an immutable source.
Row `h` starts at byte offset `screen_width * 3 * h`. -/
def shrinkFrameD (src : Nat → Nat) (W H sw sh : Nat) (h : Nat) : List Nat :=
  if h < H then
    shrinkRowD src (W * 3 * h) W sw 0 ++ shrinkFrameD src W H sw sh (h + sh + 1)
  else []
termination_by H - h
decreasing_by omega

/-- One byte read through the dump buffer during the in-place shrink:
`out` is the list of bytes written so far (the buffer prefix), positions
not yet written still hold the `memcpy`ed frame, i.e. the source byte. -/
def bufRead (src : Nat → Nat) (out : List Nat) (j : Nat) : Nat :=
  match out[j]? with
  | some v => v
  | none => src j

/-- One step `p_dump_buffer[size++] = *p_width++` of the in-place shrink:
read byte `j` through the evolving buffer and append it. -/
def bufPush (src : Nat → Nat) (out : List Nat) (j : Nat) : List Nat :=
  out ++ [bufRead src out j]

/-- Inner width loop of the in-place shrink: each of the three pixel bytes
is read through the evolving buffer and appended to it. -/
def shrinkRowIP (src : Nat → Nat) (rowOff W sw : Nat) (w : Nat) (out : List Nat) :
    List Nat :=
  if w < W then
    shrinkRowIP src rowOff W sw (w + sw + 1)
      (bufPush src (bufPush src (bufPush src out (rowOff + 3 * w)) (rowOff + 3 * w + 1))
        (rowOff + 3 * w + 2))
  else out
termination_by W - w
decreasing_by omega

/-- Outer height loop of the in-place shrink. -/
def shrinkFrameIP (src : Nat → Nat) (W H sw sh : Nat) (h : Nat) (out : List Nat) :
    List Nat :=
  if h < H then
    shrinkFrameIP src W H sw sh (h + sh + 1) (shrinkRowIP src (W * 3 * h) W sw 0 out)
  else out
termination_by H - h
decreasing_by omega

/-- The buffer-copy optimisation test of `_DumpVideoFrameToClient`:
`if (shrink_width < 4 || shrink_height < 4)` copy the whole frame into the
dump buffer first. -/
def shrinkUsesBufferCopy (sw sh : Nat) : Bool :=
  decide (sw < 4) || decide (sh < 4)

/-- The bytes sent by `_DumpVideoFrameToClient` for one frame whose top-left
source byte is `src 0`. -/
def dumpVideoFrameBytes (isShrink : Bool) (sw sh W H : Nat) (src : Nat → Nat) :
    List Nat :=
  if isShrink then
    if shrinkUsesBufferCopy sw sh then shrinkFrameIP src W H sw sh 0 []
    else shrinkFrameD src W H sw sh 0
  else (List.range (W * H * 3)).map src

/-- Number of columns the shrink pass keeps: the `k` with `k * (sw + 1) < W`,
i.e. `⌈W / (sw + 1)⌉`. -/
def shrinkOutCols (W sw : Nat) : Nat := (W + sw) / (sw + 1)

/-- Number of rows the shrink pass keeps: `⌈H / (sh + 1)⌉`. -/
def shrinkOutRows (H sh : Nat) : Nat := (H + sh) / (sh + 1)

/-! ## Wire model and session state -/

/-- UTF-8-agnostic byte rendering of the ASCII message strings of the C
source. -/
def strBytes (s : String) : List Nat := s.toList.map Char.toNat

/-- Message-type indices of `enum MessageType` (`packet_format.h`). -/
def kReset : Nat := 0
def kGetVersion : Nat := 1
def kConfigVideoStream : Nat := 2
def kConfigShrinkVideoStream : Nat := 3
def kDumpVideoFrame : Nat := 4
def kDumpRealtimeVideoFrame : Nat := 5
def kStopDumpVideoFrame : Nat := 6
def kDumpRealtimeAudioPage : Nat := 7
def kStopDumpAudioPage : Nat := 8

/-- Error codes of `enum ErrorCode` (`packet_format.h`). -/
def kOK : Nat := 0
def kArgument : Nat := 2
def kRealtimeStreamExists : Nat := 3
def kVideoMemoryOverflowStop : Nat := 4
def kVideoMemoryOverflowDrop : Nat := 5
def kAudioMemoryOverflowStop : Nat := 6
def kAudioMemoryOverflowDrop : Nat := 7
def kMemoryAllocFail : Nat := 8

/-- `kAudioPageSize_` from `session.c`. -/
def kAudioPageSize : Nat := 4096

/-- Everything the session writes to the socket.  A response packet carries
`type = (kResponse << 8) | msgType`, its error code and its payload; a data
packet carries `type = (kData << 8) | msgType`, the header `length` field,
the `VideoDataStream` / `AudioDataStream` fields, and the raw payload. -/
inductive WireEvent where
  | resp (msgType code : Nat) (payload : List Nat)
  | videoData (msgType length frameNumber width height channel : Nat)
      (payload : List Nat)
  | audioData (msgType length pageCount : Nat) (payload : List Nat)
deriving DecidableEq, Repr

/-- A request packet, already parsed from the wire encoding. -/
inductive Request where
  | reset
  | getVersion
  | configVideoStream (screenWidth screenHeight : Nat)
  | configShrinkVideoStream (sw sh : Nat)
  | dumpVideoFrame (addr1 addr2 nFrames : Nat)
  | dumpRealtimeVideoFrame (isDual : Bool) (mode : Nat)
  | stopDumpVideo
  | dumpRealtimeAudioPage (mode : Nat)
  | stopDumpAudio
deriving DecidableEq, Repr

/-- The message-type index the dispatcher stores into `message_type`. -/
def Request.msgType : Request → Nat
  | .reset => kReset
  | .getVersion => kGetVersion
  | .configVideoStream _ _ => kConfigVideoStream
  | .configShrinkVideoStream _ _ => kConfigShrinkVideoStream
  | .dumpVideoFrame _ _ _ => kDumpVideoFrame
  | .dumpRealtimeVideoFrame _ _ => kDumpRealtimeVideoFrame
  | .stopDumpVideo => kStopDumpVideoFrame
  | .dumpRealtimeAudioPage _ => kDumpRealtimeAudioPage
  | .stopDumpAudio => kStopDumpAudioPage

/-- The `Session` struct of `session.c`.  `dumpBufAllocated` stands for
`p_dump_buffer != NULL`; `mmapSource0/1` store the mapped base (physical)
address, `none` standing for a `NULL` pointer.  `realtime_mode` is the C
enum value (`0 = kNonRealtime, 1 = kStopWhenOverflow, 2 = kBestEffort`). -/
structure Session where
  messageType : Nat := 0
  dumpBufAllocated : Bool := false
  stopDump : Bool := false
  isDumpAudio : Bool := false
  screenWidth : Nat := 0
  screenHeight : Nat := 0
  isShrink : Bool := false
  shrinkWidth : Nat := 0
  shrinkHeight : Nat := 0
  realtimeCheckChannel : Nat := 0
  dumpLimit : Nat := 0
  dumpAddress0 : Nat := 0
  dumpAddress1 : Nat := 0
  unitAlignedSize : Nat := 0
  mmapSize : Nat := 0
  mmapSource0 : Option Nat := none
  mmapSource1 : Option Nat := none
  realtimeMode : Nat := 0
deriving DecidableEq, Repr

/-- The environment of a session: hardware registers as read through the
chameleon driver (addresses already include the `0xC0000000` offset),
physical memory contents, the system page size, and the outcomes of
`malloc` / `mmap` calls. -/
structure HW where
  pagesize : Nat := 4096
  videoRun : Nat → Bool := fun _ => false
  videoStart : Nat → Nat := fun _ => 0
  videoEnd : Nat → Nat := fun _ => 0
  videoLimit : Nat → Nat := fun _ => 0
  frameW : Nat → Nat := fun _ => 0
  frameH : Nat → Nat := fun _ => 0
  cropEnable : Nat → Bool := fun _ => false
  cropL : Nat → Nat := fun _ => 0
  cropR : Nat → Nat := fun _ => 0
  cropT : Nat → Nat := fun _ => 0
  cropB : Nat → Nat := fun _ => 0
  audioRun : Bool := false
  audioStart : Nat := 0
  audioEnd : Nat := 0
  mem : Nat → Nat := fun _ => 0
  mallocOk : Bool := true
  mmapOk : Bool := true

/-- One iteration's inputs to a realtime loop: whether `poll` reports the
socket readable (and which request then arrives), and the hardware
frame/page counter value read in this iteration. -/
structure LoopInput where
  poll : Option Request := none
  hwCount : Nat := 0
deriving DecidableEq, Repr

/-- Outcome of running a handler, a realtime loop, or the session loop on a
finite input prefix.  `done` is C's `kRetOK_`; `failed` is `kRetFail_`
(fatal: `SessionEntry` breaks its loop and closes the connection);
`running` means the supplied inputs were exhausted while a realtime stream
was still active; `fuelOut` is a model artifact (insufficient fuel). -/
inductive RunStatus where
  | done
  | failed
  | running
  | fuelOut
deriving DecidableEq, Repr

/-- A response packet built by `_InitResponseHead` for the message type
being serviced. -/
def respEv (s : Session) (code : Nat) (payload : List Nat) : WireEvent :=
  .resp s.messageType code payload

/-- The error-message strings of `session.c`. -/
def kErrorMessageMMap : String := "Memory map fail"
def kErrorMessageMemoryAlloc : String := "Memory allocate fail"
def kErrorMessageRealtimeMode : String := "Realtime mode is wrong"
def kErrorMessageRealtimeStream : String := "There is an existing realtime stream"
def kErrorMessageRealtimeNonSame : String := "Width or height or limit is not the same"
def kErrorMessageFrameNumberZero : String := "Frame number is 0"
def kErrorMessage2ndChannelNotRun : String := "2nd channel is not running"
def kErrorMessageNotRun : String := "Capture HW is not running"
def kErrorMessageDumpMemoryNotEnough : String := "Dump memory is not enough"
def kErrorMessageMemoryOverflow : String :=
  "Stop dump realtime audio/video due to memory overflow"

/-! ## Session helpers -/

/-- `_ResetSession`. -/
def resetSession (s : Session) : Session :=
  { s with screenWidth := 0, screenHeight := 0, isShrink := false,
           shrinkWidth := 0, shrinkHeight := 0, stopDump := false,
           isDumpAudio := false, dumpLimit := 0, realtimeMode := 0 }

/-- `_CleanDumpVariable`: free the dump buffer, clear and unmap each channel
whose dump address is set, reset the mmap size and the realtime mode. -/
def cleanDumpVariable (s : Session) : Session :=
  { s with dumpBufAllocated := false,
           dumpAddress0 := 0, dumpAddress1 := 0,
           mmapSource0 := if s.dumpAddress0 ≠ 0 then none else s.mmapSource0,
           mmapSource1 := if s.dumpAddress1 ≠ 0 then none else s.mmapSource1,
           mmapSize := 0, realtimeMode := 0, isDumpAudio := false }

/-- `_CheckRealtimeStream`: fails (after a `RealtimeStreamExists` response)
iff a realtime stream is active in this session. -/
def checkRealtimeStream (s : Session) : List WireEvent × Bool :=
  if s.realtimeMode = 0 then ([], true)
  else ([respEv s kRealtimeStreamExists (strBytes kErrorMessageRealtimeStream)], false)

/-- `_CheckRequestRealtimeMode`: `kStopWhenOverflow <= mode <= kBestEffort`. -/
def checkRequestRealtimeMode (s : Session) (mode : Nat) : List WireEvent × Bool :=
  if 1 ≤ mode ∧ mode ≤ 2 then ([], true)
  else ([respEv s kArgument (strBytes kErrorMessageRealtimeMode)], false)

/-- `_PrepareDumpBuffer`: `malloc(unit_aligned_size)`. -/
def prepareDumpBuffer (hw : HW) (s : Session) : Session × List WireEvent × Bool :=
  if hw.mallocOk then ({ s with dumpBufAllocated := true }, [], true)
  else (s, [respEv s kMemoryAllocFail (strBytes kErrorMessageMemoryAlloc)], false)

/-- Channel-1 half of `_PrepareMMAP`. -/
def prepareMMAPCh1 (hw : HW) (s : Session) : Session × List WireEvent × Bool :=
  if s.dumpAddress1 ≠ 0 then
    if hw.mmapOk then ({ s with mmapSource1 := some s.dumpAddress1 }, [], true)
    else ({ s with mmapSource1 := none },
          [respEv s kArgument (strBytes kErrorMessageMMap)], false)
  else (s, [], true)

/-- `_PrepareMMAP`: record `mmap_size = dump_limit * unit_aligned_size` and
map each channel whose dump address is nonzero ( `_DoMMAP` sends the
`"Memory map fail"` response itself on failure). -/
def prepareMMAP (hw : HW) (s : Session) : Session × List WireEvent × Bool :=
  let s0 := { s with mmapSize := s.dumpLimit * s.unitAlignedSize }
  if s0.dumpAddress0 ≠ 0 then
    if hw.mmapOk then prepareMMAPCh1 hw { s0 with mmapSource0 := some s0.dumpAddress0 }
    else ({ s0 with mmapSource0 := none },
          [respEv s0 kArgument (strBytes kErrorMessageMMap)], false)
  else prepareMMAPCh1 hw s0

/-- `_GetNextDumpCount`: decide between idling (returns `current`),
dropping ahead (BestEffort), stopping (StopWhenOverflow: a final overflow
response, then 0), or advancing by one.  The result is the `uint32_t`
return value of the C function (`kRetFail_` reinterprets as `2^32 - 1`);
the events are the responses it writes. -/
def getNextDumpCount (s : Session) (currentCount hwCount : Nat) :
    List WireEvent × Nat :=
  let difference := getCountDifference (int32OfNat hwCount) (int32OfNat currentCount)
  if difference = 0 then ([], currentCount)
  else if uint32OfInt difference > s.dumpLimit then
    if s.realtimeMode = 1 then
      ([respEv s (if s.isDumpAudio then kAudioMemoryOverflowStop else kVideoMemoryOverflowStop)
          (strBytes kErrorMessageMemoryOverflow)], 0)
    else if s.realtimeMode = 2 then
      ([respEv s (if s.isDumpAudio then kAudioMemoryOverflowDrop else kVideoMemoryOverflowDrop)
          (strBytes ((if s.isDumpAudio then "Drop realtime audio page "
                      else "Drop realtime video frame ") ++ toString difference))],
        (currentCount + uint32OfInt difference) % 2 ^ 32)
    else ([], 2 ^ 32 - 1)
  else ([], (currentCount + 1) % 2 ^ 32)

/-- Ring-slot byte offset used by both realtime loops:
`(count % dump_limit) * unit_size`. -/
def ringSlotOffset (count dumpLimit unitSize : Nat) : Nat :=
  count % dumpLimit * unitSize

/-- Announced output width of `_InitDumpVideoHead`:
`screen_width / (shrink_width + 1)`. -/
def dumpHeadWidth (s : Session) : Nat := s.screenWidth / (s.shrinkWidth + 1)

/-- Announced output height of `_InitDumpVideoHead`. -/
def dumpHeadHeight (s : Session) : Nat := s.screenHeight / (s.shrinkHeight + 1)

/-- `sizeof(VideoDataStream)`: 4 + 2 + 2 + 1 + 3 bytes of padding. -/
def kVideoDataStreamSize : Nat := 12

/-- `sizeof(AudioDataStream)`: the 4-byte page count. -/
def kAudioDataStreamSize : Nat := 4

/-- `_DumpAllChannelVideoFrame` with the header fields of
`_InitDumpVideoHead`: one `VideoDataStreamHead` plus frame body per mapped
channel, the frame read at byte offset `offset` into the channel's mapped
region. -/
def dumpAllChannelVideoFrame (hw : HW) (s : Session) (frameNumber offset : Nat) :
    List WireEvent :=
  let len := kVideoDataStreamSize + dumpHeadWidth s * dumpHeadHeight s * 3
  let evCh := fun (ch base : Nat) =>
    WireEvent.videoData s.messageType len frameNumber (dumpHeadWidth s)
      (dumpHeadHeight s) ch
      (dumpVideoFrameBytes s.isShrink s.shrinkWidth s.shrinkHeight
        s.screenWidth s.screenHeight (fun j => hw.mem (base + offset + j)))
  (match s.mmapSource0 with | some b => [evCh 0 b] | none => []) ++
    (match s.mmapSource1 with | some b => [evCh 1 b] | none => [])

/-- `_DoDumpVideoFrame`: frames `0, …, number_of_frames - 1`, frame `i`
read at offset `i * unit_aligned_size`. -/
def doDumpVideoFrame (hw : HW) (s : Session) (numberOfFrames : Nat) : List WireEvent :=
  (List.range numberOfFrames).flatMap fun i =>
    dumpAllChannelVideoFrame hw s i (i * s.unitAlignedSize)

/-- The 4096 bytes copied out of the audio ring starting at `base + offset`. -/
def audioPageBytes (mem : Nat → Nat) (base offset : Nat) : List Nat :=
  (List.range kAudioPageSize).map fun j => mem (base + offset + j)

/-- Width/height of a video channel: the crop window when crop is enabled,
else the frame width/height registers. -/
def channelGeometry (hw : HW) (ch : Nat) : Nat × Nat :=
  if hw.cropEnable ch then (hw.cropR ch - hw.cropL ch, hw.cropB ch - hw.cropT ch)
  else (hw.frameW ch, hw.frameH ch)

/-- `_GetRealtimeVideoParameters`: channel auto-detection, geometry, dump
limit, page-aligned unit size, and the dump-memory-space checks. -/
def getRealtimeVideoParameters (hw : HW) (s : Session) (isDual : Bool) (mode : Nat) :
    Session × List WireEvent × Bool :=
  match (if hw.videoRun 0 then some 0 else if hw.videoRun 1 then some 1
         else none : Option Nat) with
  | none => (s, [respEv s kArgument (strBytes kErrorMessageNotRun)], false)
  | some ch =>
    let s := { s with dumpAddress0 := hw.videoStart ch }
    let w := (channelGeometry hw ch).1
    let h := (channelGeometry hw ch).2
    let s := { s with dumpLimit := hw.videoLimit ch,
                      screenWidth := w % 2 ^ 16, screenHeight := h % 2 ^ 16,
                      realtimeCheckChannel := ch,
                      unitAlignedSize := calculatePageAlignedSize hw.pagesize (w * h * 3),
                      realtimeMode := mode }
    if sub32 (hw.videoEnd ch) s.dumpAddress0 ≤ mul32 s.unitAlignedSize s.dumpLimit then
      (s, [respEv s kArgument (strBytes kErrorMessageDumpMemoryNotEnough)], false)
    else if !isDual then ({ s with dumpAddress1 := 0 }, [], true)
    else
      let och := 1 - ch
      if !hw.videoRun och then
        (s, [respEv s kArgument (strBytes kErrorMessage2ndChannelNotRun)], false)
      else
        let w2 := (channelGeometry hw och).1
        let h2 := (channelGeometry hw och).2
        if s.screenWidth ≠ w2 ∨ s.screenHeight ≠ h2 ∨ s.dumpLimit ≠ hw.videoLimit och then
          (s, [respEv s kArgument (strBytes kErrorMessageRealtimeNonSame)], false)
        else
          let s := { s with dumpAddress1 := hw.videoStart och }
          if sub32 (hw.videoEnd och) s.dumpAddress1 ≤
              mul32 s.unitAlignedSize s.dumpLimit then
            (s, [respEv s kArgument (strBytes kErrorMessageDumpMemoryNotEnough)], false)
          else (s, [], true)

/-- `_GetRealtimeAudioParameters`: audio run bit, dump limit derived from
the address range, 4096-byte unit. -/
def getRealtimeAudioParameters (hw : HW) (s : Session) (mode : Nat) :
    Session × List WireEvent × Bool :=
  if !hw.audioRun then (s, [respEv s kArgument (strBytes kErrorMessageNotRun)], false)
  else
    let s := { s with dumpAddress0 := hw.audioStart }
    ({ s with dumpLimit := sub32 hw.audioEnd s.dumpAddress0 / kAudioPageSize,
              unitAlignedSize := kAudioPageSize, realtimeMode := mode }, [], true)

/-! ## The dispatcher and the realtime loops

`_ProcessMessage` dispatches to the handlers; the two realtime loops poll
the socket and dispatch interleaved requests through `_ProcessMessage`
again (an interleaved request can even tear the current stream down and
start a new one, hence the mutual recursion).  `sched` lists one
`LoopInput` per realtime-loop iteration; `fuel` bounds the recursion and is
always chosen larger than the total number of iterations. -/

mutual

/-- `_ProcessMessage` after framing: store the message type, dispatch on
the handler table.  The `RunStatus` is the handler's return value (`done` =
`kRetOK_`, `failed` = `kRetFail_`); `running` escapes when `sched` ends
inside a still-active realtime loop. -/
def processMessage (fuel : Nat) (hw : HW) (s : Session) (req : Request)
    (sched : List LoopInput) : Session × List WireEvent × RunStatus × List LoopInput :=
  match fuel with
  | 0 => (s, [], .fuelOut, sched)
  | fuel + 1 =>
    let s := { s with messageType := req.msgType }
    match req with
    | .reset =>
      match checkRealtimeStream s with
      | (evs, false) => (s, evs, .failed, sched)
      | (_, true) =>
        let s := resetSession s
        (s, [respEv s kOK []], .done, sched)
    | .getVersion => (s, [respEv s kOK [1, 0]], .done, sched)
    | .configVideoStream w h =>
      let s := { s with screenWidth := w % 2 ^ 16, screenHeight := h % 2 ^ 16 }
      (s, [respEv s kOK []], .done, sched)
    | .configShrinkVideoStream sw sh =>
      let s := { s with shrinkWidth := sw % 2 ^ 8, shrinkHeight := sh % 2 ^ 8 }
      let s := { s with isShrink := s.shrinkWidth ≠ 0 || s.shrinkHeight ≠ 0 }
      (s, [respEv s kOK []], .done, sched)
    | .dumpVideoFrame addr1 addr2 nFrames =>
      let s := { s with
        unitAlignedSize :=
          calculatePageAlignedSize hw.pagesize (s.screenWidth * s.screenHeight * 3),
        dumpAddress0 := addr1 % 2 ^ 32, dumpAddress1 := addr2 % 2 ^ 32 }
      if nFrames % 2 ^ 16 = 0 then
        (s, [respEv s kArgument (strBytes kErrorMessageFrameNumberZero)], .failed, sched)
      else
        match prepareDumpBuffer hw s with
        | (s1, evs1, false) => (s1, evs1, .failed, sched)
        | (s1, _, true) =>
          let s2 := { s1 with dumpLimit := nFrames % 2 ^ 16 }
          match prepareMMAP hw s2 with
          | (s3, evs3, false) => (s3, evs3, .failed, sched)
          | (s3, _, true) =>
            let evs := respEv s3 kOK [] :: doDumpVideoFrame hw s3 (nFrames % 2 ^ 16)
            (cleanDumpVariable s3, evs, .done, sched)
    | .dumpRealtimeVideoFrame isDual mode =>
      match checkRealtimeStream s with
      | (evs, false) => (s, evs, .failed, sched)
      | (_, true) =>
        match checkRequestRealtimeMode s mode with
        | (evs, false) => (s, evs, .failed, sched)
        | (_, true) =>
          match getRealtimeVideoParameters hw s isDual mode with
          | (s1, evs1, false) => (s1, evs1, .failed, sched)
          | (s1, _, true) =>
            match prepareDumpBuffer hw s1 with
            | (s2, evs2, false) => (s2, evs2, .failed, sched)
            | (s2, _, true) =>
              match prepareMMAP hw s2 with
              | (s3, evs3, false) => (s3, evs3, .failed, sched)
              | (s3, _, true) =>
                let ack := respEv s3 kOK []
                match doDumpRealtimeVideo fuel hw s3 0 sched with
                | (s4, evs4, .done, rest) =>
                  (cleanDumpVariable s4, ack :: evs4, .done, rest)
                | (s4, evs4, res, rest) => (s4, ack :: evs4, res, rest)
    | .stopDumpVideo =>
      let s := if s.realtimeMode ≠ 0 then { s with stopDump := true } else s
      (s, [respEv s kOK []], .done, sched)
    | .dumpRealtimeAudioPage mode =>
      let s := { s with isDumpAudio := true }
      match checkRealtimeStream s with
      | (evs, false) => (s, evs, .failed, sched)
      | (_, true) =>
        match checkRequestRealtimeMode s mode with
        | (evs, false) => (s, evs, .failed, sched)
        | (_, true) =>
          match getRealtimeAudioParameters hw s mode with
          | (s1, evs1, false) => (s1, evs1, .failed, sched)
          | (s1, _, true) =>
            match prepareDumpBuffer hw s1 with
            | (s2, evs2, false) => (s2, evs2, .failed, sched)
            | (s2, _, true) =>
              match prepareMMAP hw s2 with
              | (s3, evs3, false) => (s3, evs3, .failed, sched)
              | (s3, _, true) =>
                let ack := respEv s3 kOK []
                match doDumpRealtimeAudio fuel hw s3 0 sched with
                | (s4, evs4, .done, rest) =>
                  (cleanDumpVariable s4, ack :: evs4, .done, rest)
                | (s4, evs4, res, rest) => (s4, ack :: evs4, res, rest)
    | .stopDumpAudio =>
      let s := if s.realtimeMode ≠ 0 then { s with stopDump := true } else s
      (s, [respEv s kOK []], .done, sched)

/-- `_DoDumpRealtimeVideoFrame`: per iteration poll/dispatch, stop-flag
check, hardware count sample, pacing decision, emission.  The data header
is re-initialised after every dispatch, so its fields always reflect the
current session state at emission time. -/
def doDumpRealtimeVideo (fuel : Nat) (hw : HW) (s : Session) (frameNumber : Nat)
    (sched : List LoopInput) : Session × List WireEvent × RunStatus × List LoopInput :=
  match fuel with
  | 0 => (s, [], .fuelOut, sched)
  | fuel + 1 =>
    match sched with
    | [] => (s, [], .running, [])
    | inp :: rest =>
      let (s1, evs1, st, rest1) :=
        match inp.poll with
        | none => (s, [], RunStatus.done, rest)
        | some r => processMessage fuel hw s r rest
      match st with
      | .done =>
        if s1.stopDump then ({ s1 with stopDump := false }, evs1, .done, rest1)
        else
          let (evsN, next) := getNextDumpCount s1 frameNumber inp.hwCount
          if next = frameNumber then
            let (s2, evs2, res, rest2) := doDumpRealtimeVideo fuel hw s1 frameNumber rest1
            (s2, evs1 ++ evsN ++ evs2, res, rest2)
          else if next = 0 then (s1, evs1 ++ evsN, .done, rest1)
          else
            let evsD := dumpAllChannelVideoFrame hw s1 frameNumber
              (ringSlotOffset frameNumber s1.dumpLimit s1.unitAlignedSize)
            let (s2, evs2, res, rest2) := doDumpRealtimeVideo fuel hw s1 next rest1
            (s2, evs1 ++ evsN ++ evsD ++ evs2, res, rest2)
      | res => (s1, evs1, res, rest1)

/-- `_DoDumpRealtimeAudioPage`: like the video loop, but the message type
is saved and restored around an interleaved dispatch, and each emission is
one `AudioDataStreamHead` plus exactly 4096 bytes from the ring slot. -/
def doDumpRealtimeAudio (fuel : Nat) (hw : HW) (s : Session) (pageCount : Nat)
    (sched : List LoopInput) : Session × List WireEvent × RunStatus × List LoopInput :=
  match fuel with
  | 0 => (s, [], .fuelOut, sched)
  | fuel + 1 =>
    match sched with
    | [] => (s, [], .running, [])
    | inp :: rest =>
      let (s1, evs1, st, rest1) :=
        match inp.poll with
        | none => (s, [], RunStatus.done, rest)
        | some r =>
          let backup := s.messageType
          match processMessage fuel hw s r rest with
          | (s', evs', .done, rest') =>
            ({ s' with messageType := backup }, evs', .done, rest')
          | other => other
      match st with
      | .done =>
        if s1.stopDump then ({ s1 with stopDump := false }, evs1, .done, rest1)
        else
          let (evsN, next) := getNextDumpCount s1 pageCount inp.hwCount
          if next = pageCount then
            let (s2, evs2, res, rest2) := doDumpRealtimeAudio fuel hw s1 pageCount rest1
            (s2, evs1 ++ evsN ++ evs2, res, rest2)
          else if next = 0 then (s1, evs1 ++ evsN, .done, rest1)
          else
            let evsD :=
              match s1.mmapSource0 with
              | some base =>
                [WireEvent.audioData s1.messageType (kAudioDataStreamSize + kAudioPageSize)
                  pageCount (audioPageBytes hw.mem base
                    (ringSlotOffset pageCount s1.dumpLimit kAudioPageSize))]
              | none => []
            let (s2, evs2, res, rest2) := doDumpRealtimeAudio fuel hw s1 next rest1
            (s2, evs1 ++ evsN ++ evsD ++ evs2, res, rest2)
      | res => (s1, evs1, res, rest1)

end

/-- The main loop of `SessionEntry`: read one request, dispatch, repeat;
break — closing the connection and destroying the session — as soon as a
handler fails. -/
def sessionRun (fuel : Nat) (hw : HW) (s : Session) (reqs : List Request)
    (sched : List LoopInput) : List WireEvent × RunStatus :=
  match fuel with
  | 0 => ([], .fuelOut)
  | fuel + 1 =>
    match reqs with
    | [] => ([], .done)
    | r :: rest =>
      match processMessage fuel hw s r sched with
      | (s', evs, .done, sched') =>
        let (evs2, st) := sessionRun fuel hw s' rest sched'
        (evs ++ evs2, st)
      | (_, evs, res, _) => (evs, res)

/-! ## Observation helpers and concrete instances -/

/-- The `frame_number` fields of the video data frames for channel `ch`, in
wire order. -/
def videoFrameNumbersCh (ch : Nat) (evs : List WireEvent) : List Nat :=
  evs.filterMap fun e =>
    match e with
    | .videoData _ _ n _ _ c _ => if c = ch then some n else none
    | _ => none

/-- A default environment: registers read 0, memory reads 0, `malloc` and
`mmap` succeed. -/
def hw0 : HW := {}

/-- Hardware for the realtime-video scenarios: channel 0 running, a 2×1
frame, dump limit 1, dump region `[0xC0000000, 0xC0002000)`. -/
def hwC4 : HW :=
  { videoRun := fun ch => ch == 0, videoStart := fun _ => 0xC0000000,
    videoEnd := fun _ => 0xC0002000, videoLimit := fun _ => 1,
    frameW := fun _ => 2, frameH := fun _ => 1 }

/-- The session state inside `_DoDumpRealtimeVideoFrame` right after a
successful BestEffort realtime video configure against `hwC4` (this is
`(processMessage …).1` just before the loop is entered). -/
def sC4 : Session :=
  { messageType := 5, realtimeMode := 2, dumpLimit := 1, unitAlignedSize := 4096,
    screenWidth := 2, screenHeight := 1, dumpAddress0 := 0xC0000000,
    mmapSource0 := some 0xC0000000, dumpBufAllocated := true }

/-- Two loop iterations: one ordinary emission, then an interleaved
non-realtime `DumpVideoFrame` request for one frame. -/
def schedC4 : List LoopInput :=
  [{ hwCount := 1 }, { poll := some (.dumpVideoFrame 0xC0000000 0 1), hwCount := 1 }]

/-- The session state inside `_DoDumpRealtimeAudioPage` after a successful
BestEffort realtime audio configure with `dump_limit = 8`. -/
def sC3 : Session :=
  { messageType := 7, isDumpAudio := true, realtimeMode := 2, dumpLimit := 8,
    unitAlignedSize := 4096, dumpAddress0 := 0xC0000000,
    mmapSource0 := some 0xC0000000, dumpBufAllocated := true }

/-- The same audio session in StopWhenOverflow mode. -/
def sC3stop : Session := { sC3 with realtimeMode := 1 }

/-- The realtime video session of `sC4` with `dump_limit = 0` (the Dump
Limit register read 0; the configure-time space check passes because the
region is nonempty and `unit * 0 = 0`). -/
def sC9 : Session := { sC4 with dumpLimit := 0 }

/-- Hardware whose channel-0 dump region size *equals*
`unit_aligned_size * dump_limit` (2 × 4096 bytes): the boundary case of the
realtime video space check. -/
def hwC6eq : HW :=
  { videoRun := fun ch => ch == 0, videoStart := fun _ => 0xC0000000,
    videoEnd := fun _ => 0xC0002000, videoLimit := fun _ => 2,
    frameW := fun _ => 2, frameH := fun _ => 1 }

/-- Hardware whose channel-0 dump region is one byte larger than
`unit_aligned_size * dump_limit`: the smallest accepted region. -/
def hwC6gt : HW :=
  { videoRun := fun ch => ch == 0, videoStart := fun _ => 0xC0000000,
    videoEnd := fun _ => 0xC0002001, videoLimit := fun _ => 2,
    frameW := fun _ => 2, frameH := fun _ => 1 }

/-! ## Arithmetic helper lemmas -/

theorem int32OfNat_of_lt {n : Nat} (h : n < 2 ^ 31) : int32OfNat n = (n : Int) := by
  unfold int32OfNat
  split_ifs with h1 <;> omega

theorem tmod_natCast (m : Nat) : Int.tmod (m : Int) 65536 = ((m % 65536 : Nat) : Int) :=
  rfl

theorem uint32OfInt_of_bounds {d : Int} (h0 : 0 ≤ d) (h1 : d < 2 ^ 32) :
    (uint32OfInt d : Int) = d := by
  unfold uint32OfInt
  rw [Int.emod_eq_of_lt h0 h1, Int.toNat_of_nonneg h0]

/-- For emitted counts below `2^31` (so that the `uint32_t → int` conversion
is value-preserving) and 16-bit hardware counts, `_GetCountDifference`
computes the mathematical wrap difference and is bounded by the wrap. -/
theorem getCountDifference_facts (e h : Nat) (he : e < 2 ^ 31) (hh : h < 2 ^ 16) :
    0 ≤ getCountDifference (int32OfNat h) (int32OfNat e) ∧
    getCountDifference (int32OfNat h) (int32OfNat e) < 65536 ∧
    getCountDifference (int32OfNat h) (int32OfNat e) =
      ((h : Int) - (e : Int) % 65536 + 65536) % 65536 ∧
    (getCountDifference (int32OfNat h) (int32OfNat e) = 0 ↔ h = e % 65536) := by
  rw [int32OfNat_of_lt he, int32OfNat_of_lt (by omega : h < 2 ^ 31)]
  simp only [getCountDifference, tmod_natCast]
  have h1 : e % 65536 < 65536 := Nat.mod_lt _ (by norm_num)
  split_ifs with hd <;> push_cast <;> omega

/-! ## Claim C2 -/

/-- Claim C2, counterexample.  The claim quantifies over all emitted counts
in `[0, 2^32)`, but `_GetCountDifference` receives the emitted count
through a C `int` parameter: for `emitted = 2^31 + 1` (whose `int`
reinterpretation is negative, making `count % 65536` negative) and
`hw = 1 = emitted mod 65536`, the function returns 65536 — not the claimed
`((hw − (emitted mod 65536)) + 65536) mod 65536 = 0`, not `0` although
`hw = emitted mod 65536`, and not an element of `[0, 65536)`. -/
theorem c2_counterexample :
    (2 ^ 31 + 1) % 65536 = 1 ∧
    getCountDifference (int32OfNat 1) (int32OfNat (2 ^ 31 + 1)) = 65536 ∧
    ¬ getCountDifference (int32OfNat 1) (int32OfNat (2 ^ 31 + 1)) < 65536 := by
  refine ⟨by decide, by decide, by decide⟩

/-- Claim C2, amended: for every emitted count in `[0, 2^31)` (the range on
which the `uint32_t → int` conversion of the argument is value-preserving)
and every hardware count in `[0, 2^16)`, the difference computed by
`_GetCountDifference` equals `((hw − (emitted mod 65536)) + 65536) mod
65536`, lies in `[0, 65536)`, and is 0 iff `hw = emitted mod 65536`. -/
theorem c2_theorem (emitted hw : Nat) (he : emitted < 2 ^ 31) (hh : hw < 2 ^ 16) :
    getCountDifference (int32OfNat hw) (int32OfNat emitted) =
      ((hw : Int) - (emitted : Int) % 65536 + 65536) % 65536 ∧
    0 ≤ getCountDifference (int32OfNat hw) (int32OfNat emitted) ∧
    getCountDifference (int32OfNat hw) (int32OfNat emitted) < 65536 ∧
    (getCountDifference (int32OfNat hw) (int32OfNat emitted) = 0 ↔
      hw = emitted % 65536) := by
  obtain ⟨h0, h1, h2, h3⟩ := getCountDifference_facts emitted hw he hh
  exact ⟨h2, h0, h1, h3⟩

/-- Witness for `c2_theorem` at `emitted = 70000`, `hw = 4464`. -/
theorem c2_witness :
    70000 < 2 ^ 31 ∧ 4464 < 2 ^ 16 ∧
    (getCountDifference (int32OfNat 4464) (int32OfNat 70000) =
      ((4464 : Int) - (70000 : Int) % 65536 + 65536) % 65536 ∧
    0 ≤ getCountDifference (int32OfNat 4464) (int32OfNat 70000) ∧
    getCountDifference (int32OfNat 4464) (int32OfNat 70000) < 65536 ∧
    (getCountDifference (int32OfNat 4464) (int32OfNat 70000) = 0 ↔
      4464 = 70000 % 65536)) :=
  ⟨by decide, by decide, c2_theorem 70000 4464 (by decide) (by decide)⟩

/-! ## Claim C8 -/

/-- Claim C8, counterexample.  The claim says a request payload is accepted
iff its length is at most `max_buffer − header_size = 2040`; but
`_ReadFromSocket` only refuses sizes greater than `MAX_SOCKETBUFFER_SIZE =
2048`, so a length of 2048 is accepted at parse time although it exceeds
2040. -/
theorem c8_counterexample :
    processMessagePayloadOk 2048 = true ∧ ¬ (2048 ≤ kMaxSocketBufferSize - 8) := by
  refine ⟨by decide, by decide⟩

/-- Claim C8, amended: at parse time the session accepts a request payload
iff its length field is at most `MAX_SOCKETBUFFER_SIZE = 2048` (the whole
socket buffer, not `max_buffer − header_size`: the payload is read into the
start of the buffer, overwriting the header).  Stated for length fields
below `2^31`, where the `u32 → int` conversion is value-preserving. -/
theorem c8_theorem (len : Nat) (h : len < 2 ^ 31) :
    processMessagePayloadOk len = true ↔ len ≤ kMaxSocketBufferSize := by
  unfold processMessagePayloadOk readFromSocketSizeOk kMaxSocketBufferSize
  rw [int32OfNat_of_lt h]
  simp only [Bool.or_eq_true, beq_iff_eq, decide_eq_true_eq]
  omega

/-- Witness for `c8_theorem` at the boundary length 2048. -/
theorem c8_witness :
    2048 < 2 ^ 31 ∧ (processMessagePayloadOk 2048 = true ↔ 2048 ≤ kMaxSocketBufferSize) :=
  ⟨by decide, c8_theorem 2048 (by decide)⟩

/-! ## Claim C9 -/

/-- Claim C9, counterexample.  The claim asserts the modulo by `dump_limit`
is never evaluated with `dump_limit = 0` because "the pacing loop takes the
overflow branch before any emission".  In BestEffort mode the overflow
branch *advances* the count and falls through to the emission of the same
iteration: with `dump_limit = 0` and a hardware count of 1 the loop sends
the drop notice and then emits a data frame, reaching
`frame_number % dump_limit` with `dump_limit = 0` (division by zero in C).
`sC9` is the post-configure state for a Dump Limit register reading 0,
which passes the configure-time space check since the region is nonempty. -/
theorem c9_counterexample :
    sC9.dumpLimit = 0 ∧ sC9.realtimeMode = 2 ∧
    videoFrameNumbersCh 0 (doDumpRealtimeVideo 2 hw0 sC9 0 [{ hwCount := 1 }]).2.1 =
      [0] := by
  refine ⟨by decide, by decide, by decide⟩

/-- Claim C9, amended: whenever `dump_limit > 0`, the ring-slot byte range
`[offset, offset + unit)` with `offset = unit × (count mod dump_limit)`
(the offset both realtime loops pass to the copy) lies within the mapped
length `dump_limit × unit`; when `dump_limit = 0` in BestEffort mode the
loop does reach the slot computation (see the counterexample). -/
theorem c9_theorem (count dumpLimit unitSize : Nat) (h : 0 < dumpLimit) :
    ringSlotOffset count dumpLimit unitSize + unitSize ≤ dumpLimit * unitSize := by
  unfold ringSlotOffset
  have h1 : count % dumpLimit + 1 ≤ dumpLimit := Nat.mod_lt _ h
  calc count % dumpLimit * unitSize + unitSize
      = (count % dumpLimit + 1) * unitSize := by ring
    _ ≤ dumpLimit * unitSize := Nat.mul_le_mul_right _ h1

/-- Witness for `c9_theorem` at `count = 20`, `dump_limit = 8`,
`unit = 4096`. -/
theorem c9_witness :
    0 < 8 ∧ ringSlotOffset 20 8 4096 + 4096 ≤ 8 * 4096 :=
  ⟨by decide, c9_theorem 20 8 4096 (by decide)⟩

/-! ## Claim C10 -/

/-- Claim C10: for every size and positive page size,
`_calculate_page_aligned_size` returns the least multiple of the page size
that is ≥ the size: a multiple of the page size, at least `size`, and less
than `size + pagesize` (so an already aligned size is returned
unchanged). -/
theorem c10_theorem (pagesize size : Nat) (hp : 0 < pagesize) :
    pagesize ∣ calculatePageAlignedSize pagesize size ∧
    size ≤ calculatePageAlignedSize pagesize size ∧
    calculatePageAlignedSize pagesize size < size + pagesize := by
  unfold calculatePageAlignedSize
  split_ifs with h
  · have hd := Nat.div_add_mod (size + pagesize) pagesize
    have hm : (size + pagesize) % pagesize = size % pagesize := Nat.add_mod_right size pagesize
    have hlt : size % pagesize < pagesize := Nat.mod_lt _ hp
    show pagesize ∣ (size + pagesize - (size + pagesize) % pagesize) ∧
      size ≤ size + pagesize - (size + pagesize) % pagesize ∧
      size + pagesize - (size + pagesize) % pagesize < size + pagesize
    refine ⟨⟨(size + pagesize) / pagesize, ?_⟩, ?_, ?_⟩ <;> omega
  · exact ⟨Nat.dvd_of_mod_eq_zero (by omega), Nat.le_refl _, by omega⟩

/-- Witness for `c10_theorem` at `pagesize = 4096`, `size = 100`. -/
theorem c10_witness :
    0 < 4096 ∧ (4096 ∣ calculatePageAlignedSize 4096 100 ∧
      100 ≤ calculatePageAlignedSize 4096 100 ∧
      calculatePageAlignedSize 4096 100 < 100 + 4096) :=
  ⟨by decide, c10_theorem 4096 100 (by decide)⟩

/-! ## Claim C6 -/

/-- Claim C6: a realtime video configure for which
`DumpEndAddress − DumpStartAddress` equals `unit_aligned_size × dump_limit`
is rejected with an `Argument` response `"Dump memory is not enough"`
(stated for the auto-detected channel 0; the `≤` in the source makes the
boundary case fail), and `_GetRealtimeVideoParameters` succeeds only when
the region size is strictly greater than `unit_aligned_size × dump_limit`
(all quantities in `uint32_t` arithmetic, as computed by the source). -/
theorem c6_theorem :
    (∀ (hw : HW) (s : Session) (isDual : Bool) (mode : Nat),
      hw.videoRun 0 = true →
      sub32 (hw.videoEnd 0) (hw.videoStart 0) =
        mul32 (calculatePageAlignedSize hw.pagesize
          ((channelGeometry hw 0).1 * (channelGeometry hw 0).2 * 3)) (hw.videoLimit 0) →
      (getRealtimeVideoParameters hw s isDual mode).2.1 =
        [.resp s.messageType kArgument (strBytes kErrorMessageDumpMemoryNotEnough)] ∧
      (getRealtimeVideoParameters hw s isDual mode).2.2 = false) ∧
    (∀ (hw : HW) (s : Session) (isDual : Bool) (mode : Nat),
      (getRealtimeVideoParameters hw s isDual mode).2.2 = true →
      sub32 (hw.videoEnd (getRealtimeVideoParameters hw s isDual mode).1.realtimeCheckChannel)
          (getRealtimeVideoParameters hw s isDual mode).1.dumpAddress0 >
        mul32 (getRealtimeVideoParameters hw s isDual mode).1.unitAlignedSize
          (getRealtimeVideoParameters hw s isDual mode).1.dumpLimit) := by
  constructor
  · intro hw s isDual mode h0 heq
    simp only [getRealtimeVideoParameters, h0, if_true, respEv]
    constructor
    · rw [if_pos (le_of_eq heq)]
    · rw [if_pos (le_of_eq heq)]
  · intro hw s isDual mode hok
    by_cases h0 : hw.videoRun 0
    · simp only [getRealtimeVideoParameters, h0, if_true, respEv] at hok ⊢
      split_ifs at hok ⊢ <;> simp_all
    · by_cases h1 : hw.videoRun 1
      · simp only [getRealtimeVideoParameters, h0, h1, if_true, if_false,
          Bool.false_eq_true, respEv] at hok ⊢
        split_ifs at hok ⊢ <;> simp_all
      · simp only [getRealtimeVideoParameters, h0, h1, Bool.false_eq_true, if_false,
          respEv] at hok

/-- Witness for `c6_theorem`: `hwC6eq` has region size exactly
`4096 × 2` and is rejected; `hwC6gt` has one byte more and passes the
check. -/
theorem c6_witness :
    (hwC6eq.videoRun 0 = true ∧
     sub32 (hwC6eq.videoEnd 0) (hwC6eq.videoStart 0) =
       mul32 (calculatePageAlignedSize hwC6eq.pagesize
         ((channelGeometry hwC6eq 0).1 * (channelGeometry hwC6eq 0).2 * 3))
         (hwC6eq.videoLimit 0) ∧
     ((getRealtimeVideoParameters hwC6eq {} false 2).2.1 =
        [.resp (Session.messageType {}) kArgument (strBytes kErrorMessageDumpMemoryNotEnough)] ∧
      (getRealtimeVideoParameters hwC6eq {} false 2).2.2 = false)) ∧
    ((getRealtimeVideoParameters hwC6gt {} false 2).2.2 = true ∧
     sub32 (hwC6gt.videoEnd
         (getRealtimeVideoParameters hwC6gt {} false 2).1.realtimeCheckChannel)
         (getRealtimeVideoParameters hwC6gt {} false 2).1.dumpAddress0 >
       mul32 (getRealtimeVideoParameters hwC6gt {} false 2).1.unitAlignedSize
         (getRealtimeVideoParameters hwC6gt {} false 2).1.dumpLimit) :=
  ⟨⟨by decide, by decide, c6_theorem.1 hwC6eq {} false 2 (by decide) (by decide)⟩,
   ⟨by decide, c6_theorem.2 hwC6gt {} false 2 (by decide)⟩⟩

/-! ## Claim C1 -/

/-- Claim C1, counterexample.  A `DumpVideoFrame` request with
`number_of_frames = 0` does produce the `Argument` response
`"Frame number is 0"`, but the handler returns `kRetFail_`, upon which the
main loop of `SessionEntry` breaks and the session is destroyed: the
following `GetVersion` request is never processed (no second response
appears) and the run ends in the `failed` (connection-closed) state, so the
session does **not** remain alive. -/
theorem c1_counterexample :
    sessionRun 5 hw0 {} [.dumpVideoFrame 0 0 0, .getVersion] [] =
      ([.resp kDumpVideoFrame kArgument (strBytes kErrorMessageFrameNumberZero)],
       .failed) := by
  decide

/-- Claim C1, amended: a request failing validation while the session is
idle gets an error response with the specific code and text, but the
handler then returns failure and `SessionEntry` terminates the session —
it does **not** continue to process further requests.  Stated for
`DumpVideoFrame` with `number_of_frames = 0` (response
`{type=0x0104, error=2, payload="Frame number is 0"}`, then session
teardown regardless of any further requests) and for a bad realtime mode
(`"Realtime mode is wrong"`, handler fails). -/
theorem c1_theorem :
    (∀ (fuel : Nat) (hw : HW) (s : Session) (a b : Nat) (sched : List LoopInput),
      (processMessage (fuel + 1) hw s (.dumpVideoFrame a b 0) sched).2.1 =
        [.resp kDumpVideoFrame kArgument (strBytes kErrorMessageFrameNumberZero)] ∧
      (processMessage (fuel + 1) hw s (.dumpVideoFrame a b 0) sched).2.2.1 = .failed) ∧
    (∀ (fuel : Nat) (hw : HW) (s : Session) (a b : Nat) (reqs : List Request)
        (sched : List LoopInput),
      sessionRun (fuel + 2) hw s (.dumpVideoFrame a b 0 :: reqs) sched =
        ([.resp kDumpVideoFrame kArgument (strBytes kErrorMessageFrameNumberZero)],
         .failed)) ∧
    (∀ (fuel : Nat) (hw : HW) (s : Session) (d : Bool) (m : Nat) (sched : List LoopInput),
      s.realtimeMode = 0 → m = 0 ∨ 2 < m →
      (processMessage (fuel + 1) hw s (.dumpRealtimeVideoFrame d m) sched).2.1 =
        [.resp kDumpRealtimeVideoFrame kArgument (strBytes kErrorMessageRealtimeMode)] ∧
      (processMessage (fuel + 1) hw s (.dumpRealtimeVideoFrame d m) sched).2.2.1 =
        .failed) := by
  refine ⟨?_, ?_, ?_⟩
  · intro fuel hw s a b sched
    simp [processMessage, Request.msgType, respEv]
  · intro fuel hw s a b reqs sched
    simp [sessionRun, processMessage, Request.msgType, respEv]
  · intro fuel hw s d m sched hrt hm
    have h1 : ¬ (1 ≤ m ∧ m ≤ 2) := by omega
    simp [processMessage, Request.msgType, respEv, checkRealtimeStream,
      checkRequestRealtimeMode, hrt, h1]

/-- Witness for `c1_theorem`, instantiating the bad-realtime-mode part at
mode 3 in the fresh session. -/
theorem c1_witness :
    ({} : Session).realtimeMode = 0 ∧ (3 = 0 ∨ 2 < 3) ∧
    ((processMessage 1 hw0 {} (.dumpRealtimeVideoFrame false 3) []).2.1 =
       [.resp kDumpRealtimeVideoFrame kArgument (strBytes kErrorMessageRealtimeMode)] ∧
     (processMessage 1 hw0 {} (.dumpRealtimeVideoFrame false 3) []).2.2.1 = .failed) :=
  ⟨rfl, Or.inr (by decide), c1_theorem.2.2 0 hw0 {} false 3 [] rfl (Or.inr (by decide))⟩

/-! ## Claim C3 -/

/-- Claim C3: when the computed difference exceeds `dump_limit`,
`_GetNextDumpCount` in StopWhenOverflow mode sends a final
`VideoMemoryOverflowStop` / `AudioMemoryOverflowStop` response with text
`"Stop dump realtime audio/video due to memory overflow"` and returns 0 —
on which the loop ends returning success — and in BestEffort mode sends an
`…OverflowDrop` response carrying the dropped count and advances the
emitted count by exactly the difference, then the loop continues.
Concretely, with `dump_limit = 8`, emitted count 3 and hardware count 20:
StopWhenOverflow ends the audio loop with status `done` (success) after
the final response; BestEffort reports `"Drop realtime audio page 17"`,
and emission resumes at count 20 (the page-20 data frame follows on the
wire, after the iteration's pending page-3 frame). -/
theorem c3_theorem :
    (∀ (s : Session) (cur hwc : Nat),
      s.realtimeMode = 1 →
      getCountDifference (int32OfNat hwc) (int32OfNat cur) ≠ 0 →
      uint32OfInt (getCountDifference (int32OfNat hwc) (int32OfNat cur)) > s.dumpLimit →
      getNextDumpCount s cur hwc =
        ([.resp s.messageType
            (if s.isDumpAudio then kAudioMemoryOverflowStop else kVideoMemoryOverflowStop)
            (strBytes kErrorMessageMemoryOverflow)], 0)) ∧
    (∀ (s : Session) (cur hwc : Nat),
      s.realtimeMode = 2 →
      getCountDifference (int32OfNat hwc) (int32OfNat cur) ≠ 0 →
      uint32OfInt (getCountDifference (int32OfNat hwc) (int32OfNat cur)) > s.dumpLimit →
      getNextDumpCount s cur hwc =
        ([.resp s.messageType
            (if s.isDumpAudio then kAudioMemoryOverflowDrop else kVideoMemoryOverflowDrop)
            (strBytes ((if s.isDumpAudio then "Drop realtime audio page "
                        else "Drop realtime video frame ") ++
              toString (getCountDifference (int32OfNat hwc) (int32OfNat cur))))],
         (cur + uint32OfInt (getCountDifference (int32OfNat hwc) (int32OfNat cur))) %
           2 ^ 32)) ∧
    (doDumpRealtimeAudio 4 hw0 sC3stop 3 [{ hwCount := 20 }] =
      (sC3stop, [.resp 7 kAudioMemoryOverflowStop (strBytes kErrorMessageMemoryOverflow)],
       .done, [])) ∧
    ((doDumpRealtimeAudio 4 hw0 sC3 3 [{ hwCount := 20 }, { hwCount := 21 }]).2.1 =
      [.resp 7 kAudioMemoryOverflowDrop (strBytes "Drop realtime audio page 17"),
       .audioData 7 4100 3 (audioPageBytes hw0.mem 0xC0000000 (ringSlotOffset 3 8 4096)),
       .audioData 7 4100 20 (audioPageBytes hw0.mem 0xC0000000 (ringSlotOffset 20 8 4096))] ∧
     (doDumpRealtimeAudio 4 hw0 sC3 3 [{ hwCount := 20 }, { hwCount := 21 }]).2.2.1 =
       .running) := by
  refine ⟨?_, ?_, by decide, by rfl, by decide⟩
  · intro s cur hwc hmode hne hgt
    simp [getNextDumpCount, respEv, hmode, hne, hgt]
  · intro s cur hwc hmode hne hgt
    simp [getNextDumpCount, respEv, hmode, hne, hgt]

/-- Witness for `c3_theorem`, instantiating both overflow branches at
`dump_limit = 8`, count 3, hardware count 20. -/
theorem c3_witness :
    (sC3stop.realtimeMode = 1 ∧
     getNextDumpCount sC3stop 3 20 =
       ([.resp sC3stop.messageType
           (if sC3stop.isDumpAudio then kAudioMemoryOverflowStop
            else kVideoMemoryOverflowStop)
           (strBytes kErrorMessageMemoryOverflow)], 0)) ∧
    (sC3.realtimeMode = 2 ∧
     getNextDumpCount sC3 3 20 =
       ([.resp sC3.messageType
           (if sC3.isDumpAudio then kAudioMemoryOverflowDrop
            else kVideoMemoryOverflowDrop)
           (strBytes ((if sC3.isDumpAudio then "Drop realtime audio page "
                       else "Drop realtime video frame ") ++
             toString (getCountDifference (int32OfNat 20) (int32OfNat 3))))],
        (3 + uint32OfInt (getCountDifference (int32OfNat 20) (int32OfNat 3))) % 2 ^ 32)) :=
  ⟨⟨by decide, c3_theorem.1 sC3stop 3 20 (by decide) (by decide) (by decide)⟩,
   ⟨by decide, c3_theorem.2.1 sC3 3 20 (by decide) (by decide) (by decide)⟩⟩

theorem bufRead_of_le (src : Nat → Nat) (out : List Nat) (j : Nat)
    (h : out.length ≤ j) : bufRead src out j = src j := by
  unfold bufRead
  rw [List.getElem?_eq_none h]

theorem bufPush_of_le (src : Nat → Nat) (out : List Nat) (j : Nat)
    (h : out.length ≤ j) : bufPush src out j = out ++ [src j] := by
  rw [bufPush, bufRead_of_le src out j h]

theorem shrinkRowD_length_le (src : Nat → Nat) (rowOff W sw w : Nat) :
    (shrinkRowD src rowOff W sw w).length ≤ 3 * (W - w) := by
  rw [shrinkRowD.eq_def]
  split_ifs with hw
  · have ih := shrinkRowD_length_le src rowOff W sw (w + sw + 1)
    simp only [List.length_cons]
    omega
  · simp
termination_by W - w
decreasing_by omega

theorem shrinkRowIP_eq (src : Nat → Nat) (rowOff W sw w : Nat) (out : List Nat)
    (hlen : out.length ≤ rowOff + 3 * w) :
    shrinkRowIP src rowOff W sw w out = out ++ shrinkRowD src rowOff W sw w := by
  rw [shrinkRowIP.eq_def, shrinkRowD.eq_def]
  split_ifs with hw
  · rw [bufPush_of_le src out (rowOff + 3 * w) (by omega)]
    rw [bufPush_of_le src (out ++ [src (rowOff + 3 * w)]) (rowOff + 3 * w + 1)
      (by simp; omega)]
    rw [bufPush_of_le src ((out ++ [src (rowOff + 3 * w)]) ++ [src (rowOff + 3 * w + 1)])
      (rowOff + 3 * w + 2) (by simp; omega)]
    rw [shrinkRowIP_eq src rowOff W sw (w + sw + 1)
      (((out ++ [src (rowOff + 3 * w)]) ++ [src (rowOff + 3 * w + 1)]) ++
        [src (rowOff + 3 * w + 2)]) (by simp; omega)]
    simp
  · simp
termination_by W - w
decreasing_by omega

theorem shrinkFrameIP_eq (src : Nat → Nat) (W H sw sh h : Nat) (out : List Nat)
    (hlen : out.length ≤ W * 3 * h) :
    shrinkFrameIP src W H sw sh h out = out ++ shrinkFrameD src W H sw sh h := by
  rw [shrinkFrameIP.eq_def, shrinkFrameD.eq_def]
  split_ifs with hh
  · rw [shrinkRowIP_eq src (W * 3 * h) W sw 0 out (by omega)]
    rw [shrinkFrameIP_eq src W H sw sh (h + sh + 1) _ ?hl]
    · simp
    case hl =>
      have hr := shrinkRowD_length_le src (W * 3 * h) W sw 0
      simp only [List.length_append]
      have he : W * 3 * (h + sh + 1) = W * 3 * h + W * 3 * (sh + 1) := by ring
      have h2 : W * 3 ≤ W * 3 * (sh + 1) := Nat.le_mul_of_pos_right _ (by omega)
      omega
  · simp
termination_by H - h
decreasing_by omega

/-! ## The shrink geometry (claims C5 and C7) -/

theorem lt_ceil_iff (A s j : Nat) : j < (A + s) / (s + 1) ↔ j * (s + 1) < A := by
  have h1 : j + 1 ≤ (A + s) / (s + 1) ↔ (j + 1) * (s + 1) ≤ A + s :=
    Nat.le_div_iff_mul_le (by omega)
  have h2 : (j + 1) * (s + 1) = j * (s + 1) + s + 1 := by ring
  omega

/-- The shrink row starting at loop counter `j * (sw + 1)` copies
`⌈W/(sw+1)⌉ - j` pixels. -/
theorem shrinkRowD_length_eq (src : Nat → Nat) (rowOff W sw j : Nat) :
    (shrinkRowD src rowOff W sw (j * (sw + 1))).length = 3 * (shrinkOutCols W sw - j) := by
  rw [shrinkRowD.eq_def]
  split_ifs with hw
  · have hj : j < shrinkOutCols W sw := by
      unfold shrinkOutCols; exact (lt_ceil_iff W sw j).2 hw
    have heq : j * (sw + 1) + sw + 1 = (j + 1) * (sw + 1) := by ring
    rw [heq]
    simp only [List.length_cons]
    rw [shrinkRowD_length_eq src rowOff W sw (j + 1)]
    omega
  · have hj : ¬ j < shrinkOutCols W sw := by
      unfold shrinkOutCols
      intro hc
      exact hw ((lt_ceil_iff W sw j).1 hc)
    simp
    omega
termination_by W - j * (sw + 1)
decreasing_by
  have h2 : (j + 1) * (sw + 1) = j * (sw + 1) + sw + 1 := by ring
  omega

/-- Byte `3k + p` of the shrink row starting at loop counter `j * (sw + 1)`
is source byte `p` of the pixel at column `(j + k) * (sw + 1)`. -/
theorem shrinkRowD_getElem (src : Nat → Nat) (rowOff W sw : Nat) (k : Nat) :
    ∀ (j p : Nat), j + k < shrinkOutCols W sw → p < 3 →
    (shrinkRowD src rowOff W sw (j * (sw + 1)))[3 * k + p]? =
      some (src (rowOff + 3 * ((j + k) * (sw + 1)) + p)) := by
  induction k with
  | zero =>
    intro j p hjk hp
    have hw : j * (sw + 1) < W := by
      refine (lt_ceil_iff W sw j).1 ?_
      unfold shrinkOutCols at hjk
      omega
    rw [shrinkRowD.eq_def, if_pos hw]
    interval_cases p <;> simp
  | succ k ih =>
    intro j p hjk hp
    have hw : j * (sw + 1) < W := by
      refine (lt_ceil_iff W sw j).1 ?_
      unfold shrinkOutCols at hjk
      omega
    rw [shrinkRowD.eq_def, if_pos hw]
    have hidx : 3 * (k + 1) + p = 3 * k + p + 1 + 1 + 1 := by ring
    rw [hidx]
    simp only [List.getElem?_cons_succ]
    have heq : j * (sw + 1) + sw + 1 = (j + 1) * (sw + 1) := by ring
    rw [heq]
    have ihj := ih (j + 1) p (by omega) hp
    rw [show j + 1 + k = j + (k + 1) from by omega] at ihj
    exact ihj

/-- The shrink pass starting at height counter `r * (sh + 1)` emits
`(⌈H/(sh+1)⌉ - r)` rows of `⌈W/(sw+1)⌉` pixels. -/
theorem shrinkFrameD_length_eq (src : Nat → Nat) (W H sw sh r : Nat) :
    (shrinkFrameD src W H sw sh (r * (sh + 1))).length =
      3 * shrinkOutCols W sw * (shrinkOutRows H sh - r) := by
  rw [shrinkFrameD.eq_def]
  split_ifs with hh
  · have hr : r < shrinkOutRows H sh := by
      unfold shrinkOutRows; exact (lt_ceil_iff H sh r).2 hh
    have heq : r * (sh + 1) + sh + 1 = (r + 1) * (sh + 1) := by ring
    rw [heq, List.length_append, shrinkFrameD_length_eq src W H sw sh (r + 1)]
    have hrow := shrinkRowD_length_eq src (W * 3 * (r * (sh + 1))) W sw 0
    rw [Nat.zero_mul, Nat.sub_zero] at hrow
    rw [hrow]
    rw [show shrinkOutRows H sh - r = (shrinkOutRows H sh - (r + 1)) + 1 from by omega]
    rw [Nat.mul_add, Nat.mul_one]
    omega
  · have hr : ¬ r < shrinkOutRows H sh := by
      unfold shrinkOutRows
      intro hc
      exact hh ((lt_ceil_iff H sh r).1 hc)
    simp
    omega
termination_by H - r * (sh + 1)
decreasing_by
  have h2 : (r + 1) * (sh + 1) = r * (sh + 1) + sh + 1 := by ring
  omega

/-- Byte `3 * (r * cols + k) + p` of the shrink output is byte `p` of the
source pixel at row `(r0 + r) * (sh + 1)`, column `k * (sw + 1)`. -/
theorem shrinkFrameD_getElem (src : Nat → Nat) (W H sw sh : Nat) (r : Nat) :
    ∀ (r0 k p : Nat), r0 + r < shrinkOutRows H sh → k < shrinkOutCols W sw → p < 3 →
    (shrinkFrameD src W H sw sh (r0 * (sh + 1)))[3 * (r * shrinkOutCols W sw + k) + p]? =
      some (src (W * 3 * ((r0 + r) * (sh + 1)) + 3 * (k * (sw + 1)) + p)) := by
  induction r with
  | zero =>
    intro r0 k p hr hk hp
    have hh : r0 * (sh + 1) < H := by
      refine (lt_ceil_iff H sh r0).1 ?_
      unfold shrinkOutRows at hr
      omega
    rw [shrinkFrameD.eq_def, if_pos hh]
    have hrow0 := shrinkRowD_getElem src (W * 3 * (r0 * (sh + 1))) W sw k 0 p (by omega) hp
    rw [Nat.zero_mul] at hrow0
    have hlen := shrinkRowD_length_eq src (W * 3 * (r0 * (sh + 1))) W sw 0
    rw [Nat.zero_mul, Nat.sub_zero] at hlen
    rw [List.getElem?_append_left (by rw [hlen]; omega)]
    rw [show 3 * (0 * shrinkOutCols W sw + k) + p = 3 * k + p from by ring]
    rw [hrow0]
    simp
  | succ r ih =>
    intro r0 k p hr hk hp
    have hh : r0 * (sh + 1) < H := by
      refine (lt_ceil_iff H sh r0).1 ?_
      unfold shrinkOutRows at hr
      omega
    rw [shrinkFrameD.eq_def, if_pos hh]
    have hlen := shrinkRowD_length_eq src (W * 3 * (r0 * (sh + 1))) W sw 0
    rw [Nat.zero_mul, Nat.sub_zero] at hlen
    have hidx : 3 * ((r + 1) * shrinkOutCols W sw + k) + p =
        3 * shrinkOutCols W sw + (3 * (r * shrinkOutCols W sw + k) + p) := by ring
    rw [hidx]
    rw [List.getElem?_append_right (by rw [hlen]; omega)]
    rw [hlen]
    rw [show 3 * shrinkOutCols W sw + (3 * (r * shrinkOutCols W sw + k) + p) -
        3 * shrinkOutCols W sw = 3 * (r * shrinkOutCols W sw + k) + p from by omega]
    have heq : r0 * (sh + 1) + sh + 1 = (r0 + 1) * (sh + 1) := by ring
    rw [heq]
    have ihr := ih (r0 + 1) k p (by omega) hk hp
    rw [show r0 + 1 + r = r0 + (r + 1) from by omega] at ihr
    exact ihr

/-- Both shrink paths — the memcpy-into-the-buffer-then-shrink-in-place one
and the direct one — emit the same bytes: each in-place read happens at an
index at or beyond the write pointer, hence still holds the copied frame. -/
theorem dumpVideoFrameBytes_shrink (sw sh W H : Nat) (src : Nat → Nat) :
    dumpVideoFrameBytes true sw sh W H src = shrinkFrameD src W H sw sh 0 := by
  unfold dumpVideoFrameBytes
  split_ifs with h hc
  · rw [shrinkFrameIP_eq src W H sw sh 0 [] (by simp)]
    simp
  · rfl
  · simp at h

theorem dumpVideoFrameBytes_shrink_length (sw sh W H : Nat) (src : Nat → Nat) :
    (dumpVideoFrameBytes true sw sh W H src).length =
      3 * shrinkOutCols W sw * shrinkOutRows H sh := by
  rw [dumpVideoFrameBytes_shrink]
  have h := shrinkFrameD_length_eq src W H sw sh 0
  rw [Nat.zero_mul, Nat.sub_zero] at h
  exact h

theorem ceil_div_of_dvd (A s : Nat) (h : (s + 1) ∣ A) : (A + s) / (s + 1) = A / (s + 1) := by
  obtain ⟨m, rfl⟩ := h
  rw [Nat.add_comm, Nat.add_mul_div_left s m (by omega), Nat.div_eq_of_lt (by omega),
    Nat.mul_div_cancel_left m (by omega)]
  omega

/-! ## Claim C7 -/

/-- Claim C7, counterexample.  The claim says the whole-frame copy into the
scratch buffer happens exactly when `shrink_width < 4 AND shrink_height <
4`; the source condition is `shrink_width < 4 || shrink_height < 4`: with
`shrink_width = 0, shrink_height = 5` the copy is performed although the
claimed conjunction is false. -/
theorem c7_counterexample :
    shrinkUsesBufferCopy 0 5 = true ∧ ¬ (0 < 4 ∧ 5 < 4) := by
  refine ⟨by decide, by decide⟩

/-- Claim C7, amended: the whole-frame copy into the scratch buffer is
performed exactly when `shrink_width < 4 OR shrink_height < 4`; and the
choice of path never changes the emitted bytes — the in-place pass always
reads at or beyond its write pointer, so both paths emit the bytes of the
direct shrink. -/
theorem c7_theorem (sw sh W H : Nat) (src : Nat → Nat) :
    (shrinkUsesBufferCopy sw sh = true ↔ (sw < 4 ∨ sh < 4)) ∧
    dumpVideoFrameBytes true sw sh W H src = shrinkFrameD src W H sw sh 0 :=
  ⟨by simp [shrinkUsesBufferCopy], dumpVideoFrameBytes_shrink sw sh W H src⟩

/-! ## Claim C5 -/

/-- Claim C5, counterexample.  For `screen_width = 5`, `screen_height = 1`,
`shrink_width = 1`, `shrink_height = 0`, the claim announces
`out_w × out_h × 3 = (5/2) × (1/1) × 3 = 6` body bytes, but the emitted
body has 9 bytes: the width loop keeps columns 0, 2 and 4 — `⌈5/2⌉ = 3`
columns, not `⌊5/2⌋ = 2`. -/
theorem c5_counterexample :
    (dumpVideoFrameBytes true 1 0 5 1 (fun i => i)).length = 9 ∧
    ¬ ((dumpVideoFrameBytes true 1 0 5 1 (fun i => i)).length =
        5 / (1 + 1) * (1 / (0 + 1)) * 3) := by
  have h := dumpVideoFrameBytes_shrink_length 1 0 5 1 (fun i => i)
  constructor
  · rw [h]; decide
  · rw [h]; decide

/-- Claim C5, amended: when `is_shrink` is true the emitted frame body
consists of `⌈screen_width/(sx+1)⌉` columns and `⌈screen_height/(sy+1)⌉`
rows of 3-byte pixels (ceiling, not the floor the data header announces),
and output pixel `(x, y)` equals the source pixel at
`(x·(sx+1), y·(sy+1))`; the body size matches the announced
`⌊screen_width/(sx+1)⌋ × ⌊screen_height/(sy+1)⌋ × 3` exactly when
`(sx+1) ∣ screen_width` and `(sy+1) ∣ screen_height`. -/
theorem c5_theorem (W H sw sh : Nat) (src : Nat → Nat) :
    (dumpVideoFrameBytes true sw sh W H src).length =
      3 * shrinkOutCols W sw * shrinkOutRows H sh ∧
    (∀ x y p, x < shrinkOutCols W sw → y < shrinkOutRows H sh → p < 3 →
      (dumpVideoFrameBytes true sw sh W H src)[3 * (y * shrinkOutCols W sw + x) + p]? =
        some (src (W * 3 * (y * (sh + 1)) + 3 * (x * (sw + 1)) + p))) ∧
    ((sw + 1) ∣ W → (sh + 1) ∣ H →
      (dumpVideoFrameBytes true sw sh W H src).length =
        W / (sw + 1) * (H / (sh + 1)) * 3) := by
  refine ⟨dumpVideoFrameBytes_shrink_length sw sh W H src, ?_, ?_⟩
  · intro x y p hx hy hp
    rw [dumpVideoFrameBytes_shrink]
    have h := shrinkFrameD_getElem src W H sw sh y 0 x p (by omega) hx hp
    simp only [Nat.zero_mul, Nat.zero_add] at h
    exact h
  · intro hw hh
    rw [dumpVideoFrameBytes_shrink_length sw sh W H src]
    unfold shrinkOutCols shrinkOutRows
    rw [ceil_div_of_dvd W sw hw, ceil_div_of_dvd H sh hh]
    ring

/-- Witness for `c5_theorem`, instantiating the pixel-position fact at
`(x, y) = (2, 0)` for a 5×1 frame with `sx = 1, sy = 0`, and the divisible
case at a 6×2 frame. -/
theorem c5_witness :
    (2 < shrinkOutCols 5 1 ∧ 0 < shrinkOutRows 1 0 ∧ 0 < 3 ∧
     (dumpVideoFrameBytes true 1 0 5 1 (fun i => i))[3 * (0 * shrinkOutCols 5 1 + 2) + 0]? =
       some ((fun i => i) (5 * 3 * (0 * (0 + 1)) + 3 * (2 * (1 + 1)) + 0))) ∧
    ((1 + 1) ∣ 6 ∧ (0 + 1) ∣ 2 ∧
     (dumpVideoFrameBytes true 1 0 6 2 (fun i => i)).length =
       6 / (1 + 1) * (2 / (0 + 1)) * 3) :=
  ⟨⟨by decide, by decide, by decide,
    (c5_theorem 5 1 1 0 (fun i => i)).2.1 2 0 0 (by decide) (by decide) (by decide)⟩,
   ⟨by decide, by decide,
    (c5_theorem 6 2 1 0 (fun i => i)).2.2 (by decide) (by decide)⟩⟩

theorem videoFrameNumbersCh_append (ch : Nat) (l1 l2 : List WireEvent) :
    videoFrameNumbersCh ch (l1 ++ l2) =
      videoFrameNumbersCh ch l1 ++ videoFrameNumbersCh ch l2 := by
  unfold videoFrameNumbersCh
  exact List.filterMap_append _ _ _

theorem videoFrameNumbersCh_getNextDumpCount (ch : Nat) (s : Session) (cur hwc : Nat) :
    videoFrameNumbersCh ch (getNextDumpCount s cur hwc).1 = [] := by
  simp only [getNextDumpCount, respEv]
  split_ifs <;> simp [videoFrameNumbersCh]

theorem videoFrameNumbersCh_dumpAll (hw : HW) (s : Session) (fn off ch : Nat) :
    videoFrameNumbersCh ch (dumpAllChannelVideoFrame hw s fn off) = [] ∨
    videoFrameNumbersCh ch (dumpAllChannelVideoFrame hw s fn off) = [fn] := by
  simp only [dumpAllChannelVideoFrame]
  rcases s.mmapSource0 with _ | b0 <;> rcases s.mmapSource1 with _ | b1 <;>
    by_cases h0 : (0 : Nat) = ch <;> by_cases h1 : (1 : Nat) = ch <;>
      simp [videoFrameNumbersCh, h0, h1] <;> omega

theorem getNextDumpCount_cases (s : Session) (cur hwc : Nat)
    (hmode : s.realtimeMode = 1 ∨ s.realtimeMode = 2)
    (hcur : cur < 2 ^ 31) (hh : hwc < 2 ^ 16) :
    (getNextDumpCount s cur hwc).2 = cur ∨
    (getNextDumpCount s cur hwc).2 = 0 ∨
    (cur < (getNextDumpCount s cur hwc).2 ∧
      (getNextDumpCount s cur hwc).2 ≤ cur + 65535) := by
  obtain ⟨hd0, hd1, _, _⟩ := getCountDifference_facts cur hwc hcur hh
  have hu : ((uint32OfInt (getCountDifference (int32OfNat hwc) (int32OfNat cur)) : Nat) : Int) =
      getCountDifference (int32OfNat hwc) (int32OfNat cur) :=
    uint32OfInt_of_bounds hd0 (by omega)
  simp only [getNextDumpCount]
  split_ifs <;> omega

theorem videoFrameNumbersCh_nil (ch : Nat) : videoFrameNumbersCh ch [] = [] := rfl

/-- Within one uninterrupted stretch of a realtime video stream (no
readable poll, 16-bit hardware counts, counts below `2^31`), the frame
numbers emitted for any fixed channel are strictly increasing and bounded
below by the starting count. -/
theorem realtimeVideo_mono (hw : HW) (ch : Nat) (s : Session)
    (hmode : s.realtimeMode = 1 ∨ s.realtimeMode = 2) :
    ∀ (sched : List LoopInput) (fuel c0 : Nat),
      (∀ i ∈ sched, i.poll = none ∧ i.hwCount < 2 ^ 16) →
      c0 + 65536 * sched.length < 2 ^ 31 →
      sched.length < fuel →
      List.Chain' (· < ·)
        (videoFrameNumbersCh ch (doDumpRealtimeVideo fuel hw s c0 sched).2.1) ∧
      ∀ n ∈ videoFrameNumbersCh ch (doDumpRealtimeVideo fuel hw s c0 sched).2.1,
        c0 ≤ n := by
  intro sched
  induction sched with
  | nil =>
    intro fuel c0 hpoll hbound hfuel
    match fuel, hfuel with
    | fuel + 1, _ => simp [doDumpRealtimeVideo, videoFrameNumbersCh]
  | cons inp rest ih =>
    intro fuel c0 hpoll hbound hfuel
    obtain ⟨hpn, hhw⟩ := hpoll inp (by simp)
    have hbound2 : c0 + 65536 * (rest.length + 1) < 2 ^ 31 := by
      simp only [List.length_cons] at hbound; exact hbound
    have hbound' : c0 + 65536 * rest.length < 2 ^ 31 := by omega
    match fuel, hfuel with
    | fuel + 1, hfuel =>
      have hfuel' : rest.length < fuel := by
        simp only [List.length_cons] at hfuel; omega
      rcases hg : getNextDumpCount s c0 inp.hwCount with ⟨evsN, next⟩
      have hcases := getNextDumpCount_cases s c0 inp.hwCount hmode (by omega) hhw
      rw [hg] at hcases
      simp only at hcases
      have hevsN : videoFrameNumbersCh ch evsN = [] := by
        have h := videoFrameNumbersCh_getNextDumpCount ch s c0 inp.hwCount
        rw [hg] at h; exact h
      by_cases hstop : s.stopDump
      · have hev : (doDumpRealtimeVideo (fuel + 1) hw s c0 (inp :: rest)).2.1 = [] := by
          simp [doDumpRealtimeVideo, hpn, hstop]
        rw [hev, videoFrameNumbersCh_nil]
        simp
      · by_cases hnc : next = c0
        · rcases hrun : doDumpRealtimeVideo fuel hw s c0 rest with ⟨s2, evs2, res, rest2⟩
          have ihc := ih fuel c0 (fun i hi => hpoll i (by simp [hi])) hbound' hfuel'
          rw [hrun] at ihc
          simp only at ihc
          have hev : (doDumpRealtimeVideo (fuel + 1) hw s c0 (inp :: rest)).2.1 =
              evsN ++ evs2 := by
            simp [doDumpRealtimeVideo, hpn, hstop, hg, hnc, hrun]
          rw [hev, videoFrameNumbersCh_append, hevsN, List.nil_append]
          exact ihc
        · by_cases hz : next = 0
          · have h0c : ¬ ((0 : Nat) = c0) := by rw [hz] at hnc; exact hnc
            have hev : (doDumpRealtimeVideo (fuel + 1) hw s c0 (inp :: rest)).2.1 =
                evsN := by
              simp [doDumpRealtimeVideo, hpn, hstop, hg, hnc, hz, h0c]
            rw [hev, hevsN]
            simp
          · have hlt : c0 < next ∧ next ≤ c0 + 65535 := by
              rcases hcases with h | h | h
              · exact absurd h hnc
              · exact absurd h hz
              · exact h
            rcases hrun : doDumpRealtimeVideo fuel hw s next rest with ⟨s2, evs2, res, rest2⟩
            have ihc := ih fuel next (fun i hi => hpoll i (by simp [hi]))
              (by omega) hfuel'
            rw [hrun] at ihc
            simp only at ihc
            have hev : (doDumpRealtimeVideo (fuel + 1) hw s c0 (inp :: rest)).2.1 =
                evsN ++ (dumpAllChannelVideoFrame hw s c0
                  (ringSlotOffset c0 s.dumpLimit s.unitAlignedSize) ++ evs2) := by
              simp [doDumpRealtimeVideo, hpn, hstop, hg, hnc, hz, hrun]
            rw [hev, videoFrameNumbersCh_append, hevsN, List.nil_append,
              videoFrameNumbersCh_append]
            rcases videoFrameNumbersCh_dumpAll hw s c0
                (ringSlotOffset c0 s.dumpLimit s.unitAlignedSize) ch with hD | hD
            · rw [hD, List.nil_append]
              refine ⟨ihc.1, ?_⟩
              intro n hn
              have := ihc.2 n hn
              omega
            · rw [hD, List.singleton_append]
              constructor
              · rw [List.chain'_cons']
                refine ⟨?_, ihc.1⟩
                intro y hy
                have hym := List.mem_of_mem_head? hy
                have := ihc.2 y hym
                omega
              · intro n hn
                rcases List.mem_cons.1 hn with rfl | hn
                · omega
                · have := ihc.2 n hn
                  omega

/-! ## Claim C4 -/

/-- Claim C4, counterexample.  The claim quantifies over every sequence of
requests "including requests interleaved into a realtime stream", but a
non-realtime `DumpVideoFrame` request interleaved into a realtime video
stream restarts frame numbering at 0: after the realtime loop has emitted
frame 0, the interleaved one-frame dump emits a data frame numbered 0
again on the same channel — the channel-0 wire sequence of frame numbers
is `[0, 0]`: neither strictly increasing nor duplicate-free. -/
theorem c4_counterexample :
    videoFrameNumbersCh 0 (doDumpRealtimeVideo 4 hwC4 sC4 0 schedC4).2.1 = [0, 0] ∧
    ¬ List.Chain' (· < ·)
        (videoFrameNumbersCh 0 (doDumpRealtimeVideo 4 hwC4 sC4 0 schedC4).2.1) ∧
    ¬ List.Pairwise (· ≠ ·)
        (videoFrameNumbersCh 0 (doDumpRealtimeVideo 4 hwC4 sC4 0 schedC4).2.1) := by
  have h : videoFrameNumbersCh 0 (doDumpRealtimeVideo 4 hwC4 sC4 0 schedC4).2.1 =
      [0, 0] := by decide
  refine ⟨h, ?_, ?_⟩ <;> rw [h]
  · simp [List.chain'_cons]
  · simp [List.pairwise_cons]

/-- Claim C4, amended: within one realtime video stream with **no**
interleaved requests (every poll reports no data), 16-bit hardware counts,
and fewer than `2^15` iterations (so the emitted count stays below `2^31`
and the `uint32_t` arithmetic cannot wrap), the data frames of any fixed
channel carry strictly increasing frame numbers — in particular no frame
number is emitted twice.  An interleaved non-realtime `DumpVideoFrame`
request breaks the property (see the counterexample). -/
theorem c4_theorem (hw : HW) (ch : Nat) (s : Session) (sched : List LoopInput)
    (fuel : Nat)
    (hmode : s.realtimeMode = 1 ∨ s.realtimeMode = 2)
    (hpoll : ∀ i ∈ sched, i.poll = none ∧ i.hwCount < 2 ^ 16)
    (hbound : 65536 * sched.length < 2 ^ 31)
    (hfuel : sched.length < fuel) :
    List.Chain' (· < ·)
      (videoFrameNumbersCh ch (doDumpRealtimeVideo fuel hw s 0 sched).2.1) ∧
    List.Pairwise (· ≠ ·)
      (videoFrameNumbersCh ch (doDumpRealtimeVideo fuel hw s 0 sched).2.1) := by
  have h := realtimeVideo_mono hw ch s hmode sched fuel 0 hpoll (by omega) hfuel
  refine ⟨h.1, ?_⟩
  have hp := List.chain'_iff_pairwise.mp h.1
  exact hp.imp (fun hlt => Nat.ne_of_lt hlt)

/-- Witness for `c4_theorem`: one emission-producing iteration of the
realtime video loop over `hwC4`/`sC4`. -/
theorem c4_witness :
    (sC4.realtimeMode = 1 ∨ sC4.realtimeMode = 2) ∧
    (∀ i ∈ [({ hwCount := 1 } : LoopInput)], i.poll = none ∧ i.hwCount < 2 ^ 16) ∧
    65536 * [({ hwCount := 1 } : LoopInput)].length < 2 ^ 31 ∧
    [({ hwCount := 1 } : LoopInput)].length < 2 ∧
    (List.Chain' (· < ·)
       (videoFrameNumbersCh 0 (doDumpRealtimeVideo 2 hwC4 sC4 0 [{ hwCount := 1 }]).2.1) ∧
     List.Pairwise (· ≠ ·)
       (videoFrameNumbersCh 0 (doDumpRealtimeVideo 2 hwC4 sC4 0 [{ hwCount := 1 }]).2.1)) :=
  ⟨Or.inr rfl, by decide, by decide, by decide,
   c4_theorem hwC4 0 sC4 [{ hwCount := 1 }] 2 (Or.inr rfl) (by decide) (by decide)
     (by decide)⟩
